import Mathlib

/-!
Shallow embedding of the core of `contactsmanager-nodejs` (src/index.ts):
the `ContactsManagerClient` class with its constructor, `generateToken`,
`setWebhookSecret` and `verifyWebhookSignature` methods.

Modelling conventions:
- JS exceptions are modelled with `Except String`; the thrown message is the
  error value.
- Ambient effects are explicit parameters: `Date.now()/1000` becomes a
  `now`/`currentTime : Int` argument, `crypto.randomUUID()` becomes a
  `jti : String` argument, `jwt.sign` and `crypto.createHmac(...).digest('hex')`
  become function parameters (they live in external npm/node libraries,
  not in this repository).
- JS strings are Lean `String`s; `Buffer.from(s)` byte length is
  `String.utf8ByteSize` (Node buffers strings as UTF-8 by default).
- A JS object used as a JSON document is the inductive `Json` below;
  `JSON.stringify` is `Json.stringify`.
-/

/-- JSON values, for webhook payloads and the open-ended device-info map. -/
inductive Json : Type where
  | null : Json
  | bool : Bool → Json
  | num : Int → Json
  | str : String → Json
  | arr : List Json → Json
  | obj : List (String × Json) → Json

/-- Two hex digits for a byte value below 256 (lowercase, as Node produces). -/
def hexDigit (n : Nat) : Char :=
  if n < 10 then Char.ofNat (48 + n) else Char.ofNat (87 + n)

/-- `\u00XX` escape for a control character, as `JSON.stringify` emits. -/
def jsonUnicodeEscape (n : Nat) : String :=
  "\\u00" ++ String.mk [hexDigit (n / 16), hexDigit (n % 16)]

/-- Escape one character the way `JSON.stringify` escapes string contents. -/
def jsonEscapeChar (c : Char) : String :=
  if c = '"' then "\\\""
  else if c = '\\' then "\\\\"
  else if c = '\x08' then "\\b"
  else if c = '\x09' then "\\t"
  else if c = '\x0a' then "\\n"
  else if c = '\x0c' then "\\f"
  else if c = '\x0d' then "\\r"
  else if c.toNat < 32 then jsonUnicodeEscape c.toNat
  else String.singleton c

/-- Quote a string as a JSON string literal, `JSON.stringify` style. -/
def jsonQuote (s : String) : String :=
  "\"" ++ String.join (s.toList.map jsonEscapeChar) ++ "\""

mutual

/-- `JSON.stringify` on the `Json` model (no spacing, insertion order kept). -/
def Json.stringify : Json → String
  | .null => "null"
  | .bool true => "true"
  | .bool false => "false"
  | .num n => toString n
  | .str s => jsonQuote s
  | .arr xs => "[" ++ stringifyArr xs ++ "]"
  | .obj fs => "\x7b" ++ stringifyObj fs ++ "\x7d"

/-- Comma-separated serialization of a JSON array's elements. -/
def stringifyArr : List Json → String
  | [] => ""
  | [x] => Json.stringify x
  | x :: xs => Json.stringify x ++ "," ++ stringifyArr xs

/-- Comma-separated serialization of a JSON object's fields. -/
def stringifyObj : List (String × Json) → String
  | [] => ""
  | [(k, v)] => jsonQuote k ++ ":" ++ Json.stringify v
  | (k, v) :: fs => jsonQuote k ++ ":" ++ Json.stringify v ++ "," ++ stringifyObj fs

end

/-- Device information: an open-ended mapping of string keys to JSON values
(`DeviceInfo` in src/index.ts, `[key: string]: any`). -/
def DeviceInfo : Type := List (String × Json)

/-- `ContactsManagerConfig` from src/index.ts. -/
structure ContactsManagerConfig : Type where
  apiKey : String
  apiSecret : String
  orgId : String

/-- State of a `ContactsManagerClient` instance (its private fields). -/
structure ContactsManagerClient : Type where
  apiKey : String
  apiSecret : String
  orgId : String
  webhookSecret : Option String := none
  defaultExpirationSeconds : Int := 86400

/-- The constructor: stores the three credentials, then throws if any is
falsy (for strings: empty). On success every field of the client is set. -/
def ContactsManagerClient.create (config : ContactsManagerConfig) :
    Except String ContactsManagerClient :=
  if config.apiKey = "" ∨ config.apiSecret = "" ∨ config.orgId = "" then
    .error "Missing required configuration: apiKey, apiSecret, and orgId are required"
  else
    .ok { apiKey := config.apiKey, apiSecret := config.apiSecret, orgId := config.orgId }

/-- `TokenParams` from src/index.ts; `none` models an omitted optional field. -/
structure TokenParams : Type where
  userId : String
  deviceInfo : Option DeviceInfo := none
  expirationSeconds : Option Int := none

/-- The JWT claims record assembled by `generateToken` (lines 73-81). -/
structure TokenPayload : Type where
  user_id : String
  api_key : String
  org_id : String
  device : DeviceInfo
  jti : String
  iat : Int
  exp : Int

/-- `TokenResponse` from src/index.ts. `expiresAt` is the `Date` value
`new Date(expiresAt * 1000)`, i.e. absolute milliseconds since the epoch.
The token type is a parameter because `jwt.sign` is external. -/
structure TokenResponse (τ : Type) : Type where
  token : τ
  expiresAt : Int

/-- The claims payload `generateToken` builds: subject, api key, org id,
device info (default empty object), the fresh `jti`, issued-at and expiry. -/
def assembledPayload (client : ContactsManagerClient) (params : TokenParams)
    (now : Int) (jti : String) : TokenPayload :=
  { user_id := params.userId
    api_key := client.apiKey
    org_id := client.orgId
    device := params.deviceInfo.getD []
    jti := jti
    iat := now
    exp := now + params.expirationSeconds.getD client.defaultExpirationSeconds }

/-- `generateToken` (src/index.ts lines 63-93). `sign` stands for
`jwt.sign(payload, apiSecret, alg HS256)`, `now` for
`Math.floor(Date.now() / 1000)` and `jti` for `crypto.randomUUID()`. -/
def generateToken {τ : Type} (sign : TokenPayload → String → Except String τ)
    (client : ContactsManagerClient) (params : TokenParams)
    (now : Int) (jti : String) : Except String (TokenResponse τ) :=
  if params.userId = "" then .error "userId is required"
  else
    let expiresAt := now + params.expirationSeconds.getD client.defaultExpirationSeconds
    match sign (assembledPayload client params now jti) client.apiSecret with
    | .ok token => .ok { token := token, expiresAt := expiresAt * 1000 }
    | .error e => .error ("Failed to generate token: " ++ e)

/-- `setWebhookSecret` (src/index.ts lines 161-166). -/
def ContactsManagerClient.setWebhookSecret (client : ContactsManagerClient)
    (secret : String) : Except String ContactsManagerClient :=
  if secret = "" then .error "Webhook secret is required and must be a string"
  else .ok { client with webhookSecret := some secret }

/-- JS `s.split(sep)` for a single-character separator (kernel-reducible). -/
def jsSplitAux (sep : Char) : List Char → List Char → List String
  | [], acc => [String.mk acc.reverse]
  | c :: rest, acc =>
    if c = sep then String.mk acc.reverse :: jsSplitAux sep rest []
    else jsSplitAux sep rest (c :: acc)

/-- JS `String.prototype.split` with a one-character separator. -/
def jsSplit (s : String) (sep : Char) : List String :=
  jsSplitAux sep s.toList []

/-- One header part after `const [key, value] = part.split('=')`:
the key is the text before the first `=`, the value is the text between the
first and second `=` (`none` when the part has no `=`, like JS `undefined`). -/
def parseHeaderPart (part : String) : String × Option String :=
  match jsSplit part '=' with
  | [] => ("", none)
  | [k] => (k, none)
  | k :: v :: _ => (k, some v)

/-- The `components` record built by the `forEach` over `signature.split(',')`,
kept as the list of assignments in order. -/
def parseSignatureHeader (signature : String) : List (String × Option String) :=
  (jsSplit signature ',').map parseHeaderPart

/-- Lookup in the `components` JS object: the last assignment to a key wins;
an absent key and a key assigned `undefined` both read back as `undefined`. -/
def componentGet (comps : List (String × Option String)) (k : String) :
    Option String :=
  match comps.reverse.find? (fun p => p.1 = k) with
  | some p => p.2
  | none => none

/-- JS truthiness of `components.t` / `components.v1`: `undefined` and the
empty string are falsy, every other string is truthy. -/
def isTruthy : Option String → Bool
  | some s => !(s = "")
  | none => false

/-- Digits-prefix parse: `none` when the text starts with no decimal digit. -/
def parseDecDigits (cs : List Char) : Option Nat :=
  match cs.takeWhile Char.isDigit with
  | [] => none
  | ds => some (ds.foldl (fun n c => 10 * n + (c.toNat - 48)) 0)

/-- JS `parseInt(s)` restricted to base-10 inputs: skip leading whitespace,
take an optional sign, then a digit prefix; `none` models `NaN`.
(The `0x` radix autodetection of `parseInt` is not modelled; the header
timestamps this code parses are decimal Unix seconds.) -/
def parseIntJS (s : String) : Option Int :=
  let cs := s.toList.dropWhile fun c =>
    c = ' ' ∨ c = '\t' ∨ c = '\n' ∨ c = '\r' ∨ c = '\x0c' ∨ c = '\x0b'
  match cs with
  | '-' :: rest => (parseDecDigits rest).map fun n => -(n : Int)
  | '+' :: rest => (parseDecDigits rest).map fun n => (n : Int)
  | rest => (parseDecDigits rest).map fun n => (n : Int)

/-- The freshness test `currentTime - parseInt(timestamp) > 900`.
When `parseInt` yields `NaN` every comparison is false, so the check
does not reject. -/
def freshnessExceeded (currentTime : Int) (timestamp : String) : Bool :=
  match parseIntJS timestamp with
  | some t => currentTime - t > 900
  | none => false

/-- Webhook request body: either already a string or a JSON document. -/
inductive WebhookPayload : Type where
  | str : String → WebhookPayload
  | json : Json → WebhookPayload

/-- `typeof payload === 'string' ? payload : JSON.stringify(payload)`. -/
def canonicalPayloadString : WebhookPayload → String
  | .str s => s
  | .json j => j.stringify

/-- `crypto.timingSafeEqual(Buffer.from(a), Buffer.from(b))`: throws a
`RangeError` when the byte lengths differ, otherwise compares contents. -/
def timingSafeEqual (a b : String) : Except String Bool :=
  if a.utf8ByteSize ≠ b.utf8ByteSize then
    .error "Input buffers must have the same byte length"
  else
    .ok (a = b)

/-- The part of `verifyWebhookSignature` that runs after header parsing,
as a function of the `t` and `v1` components (the body reads nothing else
from the header). `hmacSha256Hex secret message` stands for
`crypto.createHmac('sha256', secret).update(message).digest('hex')`. -/
def verifyFromComponents (hmacSha256Hex : String → String → String)
    (webhookSecret : String) (payload : WebhookPayload)
    (tC v1C : Option String) (currentTime : Int) : Except String Bool :=
  if !(isTruthy tC) ∨ !(isTruthy v1C) then .ok false
  else
    let timestamp := tC.getD ""
    let providedSignature := v1C.getD ""
    if freshnessExceeded currentTime timestamp then .ok false
    else
      let payloadString := canonicalPayloadString payload
      let signedPayload := timestamp ++ "." ++ payloadString
      let expectedSignature := hmacSha256Hex webhookSecret signedPayload
      timingSafeEqual providedSignature expectedSignature

/-- The `try` block of `verifyWebhookSignature` (lines 180-217): parse the
header into components, then verify from the `t` and `v1` components. -/
def verifyWebhookSignatureBody (hmacSha256Hex : String → String → String)
    (webhookSecret : String) (payload : WebhookPayload)
    (signature : String) (currentTime : Int) : Except String Bool :=
  let components := parseSignatureHeader signature
  verifyFromComponents hmacSha256Hex webhookSecret payload
    (componentGet components "t") (componentGet components "v1") currentTime

/-- `verifyWebhookSignature` (src/index.ts lines 175-222): throws when no
webhook secret was ever set; otherwise any exception from the `try` block
is caught, logged, and collapsed to `false`. `currentTime` stands for
`Math.floor(Date.now() / 1000)`. -/
def verifyWebhookSignature (hmacSha256Hex : String → String → String)
    (client : ContactsManagerClient) (payload : WebhookPayload)
    (signature : String) (currentTime : Int) : Except String Bool :=
  match client.webhookSecret with
  | none => .error "Webhook secret not set. Call setWebhookSecret() first."
  | some secret =>
    match verifyWebhookSignatureBody hmacSha256Hex secret payload signature currentTime with
    | .ok b => .ok b
    | .error _ => .ok false

example : jsSplit "t=100,v1=sig" ',' = ["t=100", "v1=sig"] := by decide
example : parseSignatureHeader "t=100,v1=sig" = [("t", some "100"), ("v1", some "sig")] := rfl
example : parseIntJS "1609459200" = some 1609459200 := rfl
example : parseIntJS "abc" = none := rfl
example : componentGet (parseSignatureHeader "t=100,v1=sig") "t" = some "100" := rfl
example : (Json.obj [("id", .str "123"), ("event", .str "user.new")]).stringify
    = "\x7b\"id\":\"123\",\"event\":\"user.new\"\x7d" := rfl

/-! ## Claims about construction and token generation -/

/-- C6: constructing a `ContactsManagerClient` with any of apiKey, apiSecret
or orgId empty throws the configuration error and yields no client;
with all three non-empty it succeeds, with every field initialized. -/
theorem constructor_validates_credentials (config : ContactsManagerConfig) :
    (config.apiKey = "" ∨ config.apiSecret = "" ∨ config.orgId = "" →
      ContactsManagerClient.create config =
        .error "Missing required configuration: apiKey, apiSecret, and orgId are required") ∧
    (config.apiKey ≠ "" → config.apiSecret ≠ "" → config.orgId ≠ "" →
      ContactsManagerClient.create config =
        .ok { apiKey := config.apiKey, apiSecret := config.apiSecret, orgId := config.orgId }) := by
  constructor
  · intro h
    rw [ContactsManagerClient.create, if_pos h]
  · intro h1 h2 h3
    rw [ContactsManagerClient.create, if_neg (by simp [h1, h2, h3])]

/-- Witness for C6 at concrete configs: empty apiKey errors, full config succeeds. -/
theorem constructor_validates_credentials_witness :
    ContactsManagerClient.create ⟨"", "s", "o"⟩ =
      .error "Missing required configuration: apiKey, apiSecret, and orgId are required" ∧
    ContactsManagerClient.create ⟨"k", "s", "o"⟩ =
      .ok { apiKey := "k", apiSecret := "s", orgId := "o" } :=
  ⟨(constructor_validates_credentials ⟨"", "s", "o"⟩).1 (Or.inl rfl),
   (constructor_validates_credentials ⟨"k", "s", "o"⟩).2
     (by decide) (by decide) (by decide)⟩

/-- C1: the signed payload embeds exactly the freshly generated `jti`, so two
calls with identical params and the same clock second, whose RNG draws are
distinct (as `crypto.randomUUID` guarantees), produce tokens decoding to
different `jti` values. -/
theorem generateToken_embeds_fresh_jti {τ : Type}
    (sign : TokenPayload → String → Except String τ)
    (decode : τ → Option TokenPayload)
    (hrt : ∀ p s tok, sign p s = .ok tok → decode tok = some p)
    (client : ContactsManagerClient) (params : TokenParams) (now : Int)
    (jti1 jti2 : String) (hne : jti1 ≠ jti2)
    (r1 r2 : TokenResponse τ)
    (h1 : generateToken sign client params now jti1 = .ok r1)
    (h2 : generateToken sign client params now jti2 = .ok r2) :
    ∃ p1 p2, decode r1.token = some p1 ∧ decode r2.token = some p2 ∧
      p1.jti = jti1 ∧ p2.jti = jti2 ∧ p1.jti ≠ p2.jti := by
  rw [generateToken] at h1 h2
  by_cases hu : params.userId = ""
  · rw [if_pos hu] at h1
    exact absurd h1 (by simp)
  · rw [if_neg hu] at h1 h2
    cases hs1 : sign (assembledPayload client params now jti1) client.apiSecret with
    | error e => rw [hs1] at h1; exact absurd h1 (by simp)
    | ok tok1 =>
      cases hs2 : sign (assembledPayload client params now jti2) client.apiSecret with
      | error e => rw [hs2] at h2; exact absurd h2 (by simp)
      | ok tok2 =>
        rw [hs1] at h1
        rw [hs2] at h2
        refine ⟨assembledPayload client params now jti1,
                assembledPayload client params now jti2, ?_, ?_, rfl, rfl, hne⟩
        · have : r1.token = tok1 := by
            cases h1
            rfl
          rw [this]
          exact hrt _ _ _ hs1
        · have : r2.token = tok2 := by
            cases h2
            rfl
          rw [this]
          exact hrt _ _ _ hs2

/-- Witness for C1: an invertible mock signer, two calls with identical
inputs but distinct RNG draws. -/
theorem generateToken_embeds_fresh_jti_witness :
    ∃ p1 p2,
      some (assembledPayload ⟨"k", "s", "o", none, 86400⟩ ⟨"u", none, some 60⟩ 1000 "uuid-a")
        = some p1 ∧
      some (assembledPayload ⟨"k", "s", "o", none, 86400⟩ ⟨"u", none, some 60⟩ 1000 "uuid-b")
        = some p2 ∧
      p1.jti = "uuid-a" ∧ p2.jti = "uuid-b" ∧ p1.jti ≠ p2.jti := by
  have h := generateToken_embeds_fresh_jti (fun p _ => .ok p) some
    (fun p s tok h => by cases h; rfl)
    ⟨"k", "s", "o", none, 86400⟩ ⟨"u", none, some 60⟩ 1000 "uuid-a" "uuid-b"
    (by decide)
    ⟨assembledPayload ⟨"k", "s", "o", none, 86400⟩ ⟨"u", none, some 60⟩ 1000 "uuid-a", 1060000⟩
    ⟨assembledPayload ⟨"k", "s", "o", none, 86400⟩ ⟨"u", none, some 60⟩ 1000 "uuid-b", 1060000⟩
    rfl rfl
  exact h

/-- C2: on valid input the token's decoded claims carry the same userId, the
client's api key and org id, and the given device info; the expiry claim is
issued-at plus expirationSeconds, and the returned `expiresAt` is the
absolute expiry instant in milliseconds, not a duration. -/
theorem generateToken_claims_roundtrip {τ : Type}
    (sign : TokenPayload → String → Except String τ)
    (decode : τ → Option TokenPayload)
    (hrt : ∀ p s tok, sign p s = .ok tok → decode tok = some p)
    (client : ContactsManagerClient) (params : TokenParams) (now : Int) (jti : String)
    (e : Int) (he : params.expirationSeconds.getD client.defaultExpirationSeconds = e)
    (hpos : 0 < e) (huid : params.userId ≠ "")
    (resp : TokenResponse τ)
    (hok : generateToken sign client params now jti = .ok resp) :
    ∃ p, decode resp.token = some p ∧
      p.user_id = params.userId ∧ p.api_key = client.apiKey ∧ p.org_id = client.orgId ∧
      p.device = params.deviceInfo.getD [] ∧ p.iat = now ∧ p.exp = now + e ∧
      resp.expiresAt = (now + e) * 1000 := by
  rw [generateToken, if_neg huid] at hok
  cases hs : sign (assembledPayload client params now jti) client.apiSecret with
  | error m => rw [hs] at hok; exact absurd hok (by simp)
  | ok tok =>
    rw [hs] at hok
    have htok : resp.token = tok ∧ resp.expiresAt =
        (now + params.expirationSeconds.getD client.defaultExpirationSeconds) * 1000 := by
      cases hok
      exact ⟨rfl, rfl⟩
    refine ⟨assembledPayload client params now jti, ?_, rfl, rfl, rfl, rfl, rfl, ?_, ?_⟩
    · rw [htok.1]
      exact hrt _ _ _ hs
    · show now + params.expirationSeconds.getD client.defaultExpirationSeconds = now + e
      rw [he]
    · rw [htok.2, he]

/-- Witness for C2: invertible mock signer, userId "user-1", device map with
one key, 3600-second expiry, issued at 1000. -/
theorem generateToken_claims_roundtrip_witness :
    ∃ p, some (assembledPayload ⟨"k", "s", "o", none, 86400⟩
        ⟨"user-1", some [("os", .str "ios")], some 3600⟩ 1000 "uuid-1") = some p ∧
      p.user_id = "user-1" ∧ p.api_key = "k" ∧ p.org_id = "o" ∧
      p.device = (some [("os", Json.str "ios")]).getD [] ∧
      p.iat = 1000 ∧ p.exp = 1000 + 3600 ∧
      (4600000 : Int) = (1000 + 3600) * 1000 := by
  have h := generateToken_claims_roundtrip (fun p _ => .ok p) some
    (fun p s tok h => by cases h; rfl)
    ⟨"k", "s", "o", none, 86400⟩ ⟨"user-1", some [("os", .str "ios")], some 3600⟩
    1000 "uuid-1" 3600 rfl (by decide) (by decide)
    ⟨assembledPayload ⟨"k", "s", "o", none, 86400⟩
        ⟨"user-1", some [("os", .str "ios")], some 3600⟩ 1000 "uuid-1", 4600000⟩
    rfl
  exact h

/-- Counterexample to C7 as stated: `generateToken` does not enforce
positivity of `expirationSeconds`. With `expirationSeconds = -100` the call
succeeds (no validation error) and even produces an expiry in the past. -/
theorem generateToken_accepts_nonpositive_expiration :
    generateToken (fun p _ => .ok p) ⟨"k", "s", "o", none, 86400⟩
      ⟨"u", none, some (-100)⟩ 1000 "j" =
      .ok { token := { user_id := "u", api_key := "k", org_id := "o", device := [],
                       jti := "j", iat := 1000, exp := 900 },
            expiresAt := 900000 } := rfl

/-- C7 amended: `generateToken` rejects an empty userId with the validation
error immediately; an omitted `expirationSeconds` falls back to the client's
default, which `ContactsManagerClient.create` always sets to 86400 (24h);
but a non-positive explicit `expirationSeconds` is not rejected. -/
theorem generateToken_input_handling {τ : Type}
    (sign : TokenPayload → String → Except String τ)
    (client : ContactsManagerClient) (params : TokenParams)
    (now : Int) (jti : String) :
    (params.userId = "" →
      generateToken sign client params now jti = .error "userId is required") ∧
    (∀ config c, ContactsManagerClient.create config = .ok c →
      c.defaultExpirationSeconds = 86400) ∧
    (params.userId ≠ "" → params.expirationSeconds = none →
      ∀ tok, sign (assembledPayload client params now jti) client.apiSecret = .ok tok →
        generateToken sign client params now jti =
          .ok { token := tok,
                expiresAt := (now + client.defaultExpirationSeconds) * 1000 } ∧
        (assembledPayload client params now jti).exp =
          now + client.defaultExpirationSeconds) ∧
    (params.userId ≠ "" → ∀ e : Int, params.expirationSeconds = some e →
      ∀ tok, sign (assembledPayload client params now jti) client.apiSecret = .ok tok →
        generateToken sign client params now jti =
          .ok { token := tok, expiresAt := (now + e) * 1000 }) := by
  refine ⟨?_, ?_, ?_, ?_⟩
  · intro h
    rw [generateToken, if_pos h]
  · intro config c hc
    rw [ContactsManagerClient.create] at hc
    by_cases hcond : config.apiKey = "" ∨ config.apiSecret = "" ∨ config.orgId = ""
    · rw [if_pos hcond] at hc
      exact absurd hc (by simp)
    · rw [if_neg hcond] at hc
      cases hc
      rfl
  · intro hu hnone tok htok
    rw [generateToken, if_neg hu, htok]
    constructor
    · rw [hnone]
      rfl
    · rw [assembledPayload, hnone]
      rfl
  · intro hu e he tok htok
    rw [generateToken, if_neg hu, htok, he]
    rfl

/-- Witness for C7's amended claim: empty userId errors; omitting
`expirationSeconds` on a freshly constructed client gives a 24h expiry. -/
theorem generateToken_input_handling_witness :
    generateToken ((fun p _ => .ok p) : TokenPayload → String → Except String TokenPayload)
      ⟨"k", "s", "o", none, 86400⟩ ⟨"", none, some 60⟩ 1000 "j" =
      .error "userId is required" ∧
    generateToken (fun p _ => .ok p) ⟨"k", "s", "o", none, 86400⟩
      ⟨"u", none, none⟩ 1000 "j" =
      .ok { token := assembledPayload ⟨"k", "s", "o", none, 86400⟩ ⟨"u", none, none⟩ 1000 "j",
            expiresAt := (1000 + (86400 : Int)) * 1000 } :=
  ⟨(generateToken_input_handling (fun p _ => .ok p)
      ⟨"k", "s", "o", none, 86400⟩ ⟨"", none, some 60⟩ 1000 "j").1 rfl,
   ((generateToken_input_handling (fun p _ => .ok p)
      ⟨"k", "s", "o", none, 86400⟩ ⟨"u", none, none⟩ 1000 "j").2.2.1
      (by decide) rfl _ rfl).1⟩

/-- C9: when the signing primitive throws, `generateToken` wraps the cause
in a recognizable "Failed to generate token" error; in every other case
(valid userId and a signer that succeeds) token generation succeeds. -/
theorem generateToken_wraps_signing_failure {τ : Type}
    (sign : TokenPayload → String → Except String τ)
    (client : ContactsManagerClient) (params : TokenParams)
    (now : Int) (jti : String) (huid : params.userId ≠ "") :
    (∀ m, sign (assembledPayload client params now jti) client.apiSecret = .error m →
      generateToken sign client params now jti =
        .error ("Failed to generate token: " ++ m)) ∧
    (∀ tok, sign (assembledPayload client params now jti) client.apiSecret = .ok tok →
      generateToken sign client params now jti =
        .ok { token := tok,
              expiresAt :=
                (now + params.expirationSeconds.getD client.defaultExpirationSeconds)
                  * 1000 }) := by
  constructor
  · intro m hm
    rw [generateToken, if_neg huid, hm]
  · intro tok htok
    rw [generateToken, if_neg huid, htok]

/-- Witness for C9: a signer that throws "JWT signing error" surfaces as
"Failed to generate token: JWT signing error"; a succeeding signer returns
the token. -/
theorem generateToken_wraps_signing_failure_witness :
    generateToken
      ((fun _ _ => .error "JWT signing error") :
        TokenPayload → String → Except String TokenPayload)
      ⟨"k", "s", "o", none, 86400⟩ ⟨"u", none, some 60⟩ 1000 "j" =
      .error ("Failed to generate token: " ++ "JWT signing error") ∧
    generateToken (fun p _ => .ok p) ⟨"k", "s", "o", none, 86400⟩
      ⟨"u", none, some 60⟩ 1000 "j" =
      .ok { token := assembledPayload ⟨"k", "s", "o", none, 86400⟩ ⟨"u", none, some 60⟩ 1000 "j",
            expiresAt := (1000 + (some (60 : Int)).getD 86400) * 1000 } :=
  ⟨(generateToken_wraps_signing_failure (fun _ _ => .error "JWT signing error")
      ⟨"k", "s", "o", none, 86400⟩ ⟨"u", none, some 60⟩ 1000 "j" (by decide)).1
      "JWT signing error" rfl,
   (generateToken_wraps_signing_failure (fun p _ => .ok p)
      ⟨"k", "s", "o", none, 86400⟩ ⟨"u", none, some 60⟩ 1000 "j" (by decide)).2
      _ rfl⟩

/-! ## Claims about webhook signature verification -/

/-- C5: with no webhook secret ever set, verification throws (fails fast)
for every payload and header, instead of returning false. -/
theorem verify_throws_without_secret (hmacSha256Hex : String → String → String)
    (client : ContactsManagerClient) (payload : WebhookPayload)
    (signature : String) (currentTime : Int)
    (h : client.webhookSecret = none) :
    verifyWebhookSignature hmacSha256Hex client payload signature currentTime =
      .error "Webhook secret not set. Call setWebhookSecret() first." := by
  rw [verifyWebhookSignature, h]

/-- Witness for C5 at a concrete unset-secret client. -/
theorem verify_throws_without_secret_witness :
    verifyWebhookSignature (fun _ _ => "") ⟨"k", "s", "o", none, 86400⟩
      (.str "p") "t=1,v1=x" 100 =
      .error "Webhook secret not set. Call setWebhookSecret() first." :=
  verify_throws_without_secret (fun _ _ => "") ⟨"k", "s", "o", none, 86400⟩
    (.str "p") "t=1,v1=x" 100 rfl

/-- C4: with a secret configured, verification never propagates an error:
it always returns an `ok` boolean; a header whose `t` or `v1` component is
missing (falsy) yields false; the result depends on the header only through
its `t` and `v1` components, so other keys are ignored; and an exception
inside the try block collapses to false. -/
theorem verify_fails_closed (hmacSha256Hex : String → String → String)
    (client : ContactsManagerClient) (secret : String)
    (hs : client.webhookSecret = some secret)
    (payload : WebhookPayload) (signature : String) (currentTime : Int) :
    (∃ b, verifyWebhookSignature hmacSha256Hex client payload signature currentTime
        = .ok b) ∧
    ((isTruthy (componentGet (parseSignatureHeader signature) "t") = false ∨
      isTruthy (componentGet (parseSignatureHeader signature) "v1") = false) →
      verifyWebhookSignature hmacSha256Hex client payload signature currentTime
        = .ok false) ∧
    (∀ signature2,
      componentGet (parseSignatureHeader signature2) "t" =
        componentGet (parseSignatureHeader signature) "t" →
      componentGet (parseSignatureHeader signature2) "v1" =
        componentGet (parseSignatureHeader signature) "v1" →
      verifyWebhookSignature hmacSha256Hex client payload signature2 currentTime =
        verifyWebhookSignature hmacSha256Hex client payload signature currentTime) ∧
    (∀ e, verifyWebhookSignatureBody hmacSha256Hex secret payload signature currentTime
        = .error e →
      verifyWebhookSignature hmacSha256Hex client payload signature currentTime
        = .ok false) := by
  refine ⟨?_, ?_, ?_, ?_⟩
  · cases h : verifyWebhookSignatureBody hmacSha256Hex secret payload signature currentTime with
    | ok b => exact ⟨b, by simp [verifyWebhookSignature, hs, h]⟩
    | error e => exact ⟨false, by simp [verifyWebhookSignature, hs, h]⟩
  · intro hmiss
    rcases hmiss with h | h <;>
      simp [verifyWebhookSignature, hs, verifyWebhookSignatureBody,
        verifyFromComponents, h]
  · intro signature2 h1 h2
    simp only [verifyWebhookSignature, hs, verifyWebhookSignatureBody, h1, h2]
  · intro e he
    simp [verifyWebhookSignature, hs, he]

/-- Witness for C4: the malformed header "garbage" is rejected with false,
not an exception. -/
theorem verify_fails_closed_witness :
    verifyWebhookSignature (fun _ _ => "h") ⟨"k", "s", "o", some "sec", 86400⟩
      (.str "p") "garbage" 100 = .ok false :=
  (verify_fails_closed (fun _ _ => "h") ⟨"k", "s", "o", some "sec", 86400⟩
    "sec" rfl (.str "p") "garbage" 100).2.1 (Or.inl rfl)

/-- With a configured secret, truthy `t` and `v1` components and a fresh
timestamp, verification reduces to the guarded constant-time comparison of
the provided signature against the expected HMAC digest. -/
theorem verify_reduces_to_compare (hmacSha256Hex : String → String → String)
    (client : ContactsManagerClient) (secret : String) (payload : WebhookPayload)
    (signature : String) (currentTime : Int) (ts v1 : String)
    (hs : client.webhookSecret = some secret)
    (ht : componentGet (parseSignatureHeader signature) "t" = some ts)
    (hts : ts ≠ "")
    (hv : componentGet (parseSignatureHeader signature) "v1" = some v1)
    (hv1 : v1 ≠ "")
    (hfresh : freshnessExceeded currentTime ts = false) :
    verifyWebhookSignature hmacSha256Hex client payload signature currentTime =
      match timingSafeEqual v1
          (hmacSha256Hex secret (ts ++ "." ++ canonicalPayloadString payload)) with
      | .ok b => .ok b
      | .error _ => .ok false := by
  simp only [verifyWebhookSignature, hs, verifyWebhookSignatureBody, ht, hv,
    verifyFromComponents, isTruthy, hts, hv1, hfresh, Option.getD_some,
    Bool.not_eq_eq_eq_not, Bool.not_true, decide_eq_false_iff_not,
    decide_not, if_false]
  simp [hts, hv1]

/-- C3: the freshness check rejects exactly the headers whose timestamp is
more than 900 seconds in the past: verification returns false whenever
currentTime - t > 900; a timestamp at or after currentTime is never
rejected by the freshness check; and inside the window a correctly signed
header verifies to true. -/
theorem verify_enforces_freshness_window (hmacSha256Hex : String → String → String)
    (client : ContactsManagerClient) (secret : String) (payload : WebhookPayload)
    (signature : String) (ts v1 : String) (t : Int)
    (hs : client.webhookSecret = some secret)
    (ht : componentGet (parseSignatureHeader signature) "t" = some ts)
    (hts : ts ≠ "")
    (hv : componentGet (parseSignatureHeader signature) "v1" = some v1)
    (hv1 : v1 ≠ "")
    (hparse : parseIntJS ts = some t) :
    (∀ currentTime : Int, currentTime - t > 900 →
      verifyWebhookSignature hmacSha256Hex client payload signature currentTime
        = .ok false) ∧
    (∀ currentTime : Int, currentTime ≤ t →
      freshnessExceeded currentTime ts = false) ∧
    (∀ currentTime : Int, currentTime - t ≤ 900 →
      v1 = hmacSha256Hex secret (ts ++ "." ++ canonicalPayloadString payload) →
      verifyWebhookSignature hmacSha256Hex client payload signature currentTime
        = .ok true) := by
  refine ⟨?_, ?_, ?_⟩
  · intro currentTime hold
    have hf : freshnessExceeded currentTime ts = true := by
      rw [freshnessExceeded, hparse]
      exact decide_eq_true hold
    simp [verifyWebhookSignature, hs, verifyWebhookSignatureBody, ht, hv,
      verifyFromComponents, isTruthy, hts, hv1, hf]
  · intro currentTime hfut
    rw [freshnessExceeded, hparse]
    exact decide_eq_false (by omega)
  · intro currentTime hwin heq
    have hf : freshnessExceeded currentTime ts = false := by
      rw [freshnessExceeded, hparse]
      exact decide_eq_false (by omega)
    rw [verify_reduces_to_compare hmacSha256Hex client secret payload signature
      currentTime ts v1 hs ht hts hv hv1 hf]
    rw [← heq, timingSafeEqual, if_neg (by simp)]
    simp

/-- Witness for C3: the toy digest function returning "sig", header
`t=100,v1=sig`: at current time 1001 (901 s later) verification returns
false; at current time 101 it returns true. -/
theorem verify_enforces_freshness_window_witness :
    verifyWebhookSignature (fun _ _ => "sig") ⟨"k", "s", "o", some "sec", 86400⟩
      (.str "p") "t=100,v1=sig" 1001 = .ok false ∧
    verifyWebhookSignature (fun _ _ => "sig") ⟨"k", "s", "o", some "sec", 86400⟩
      (.str "p") "t=100,v1=sig" 101 = .ok true :=
  ⟨(verify_enforces_freshness_window (fun _ _ => "sig")
      ⟨"k", "s", "o", some "sec", 86400⟩ "sec" (.str "p") "t=100,v1=sig"
      "100" "sig" 100 rfl rfl (by decide) rfl (by decide) rfl).1 1001 (by decide),
   (verify_enforces_freshness_window (fun _ _ => "sig")
      ⟨"k", "s", "o", some "sec", 86400⟩ "sec" (.str "p") "t=100,v1=sig"
      "100" "sig" 100 rfl rfl (by decide) rfl (by decide) rfl).2.2 101 (by decide) rfl⟩

/-- C8: inside the freshness window, verification succeeds exactly when the
header's `v1` equals the hex HMAC-SHA256 digest, keyed by the configured
secret, of "t.canonicalPayload", where the canonical payload is the string
itself or the JSON serialization of an object payload. -/
theorem verify_hmac_characterization (hmacSha256Hex : String → String → String)
    (client : ContactsManagerClient) (secret : String) (payload : WebhookPayload)
    (signature : String) (currentTime : Int) (ts v1 : String) (t : Int)
    (hs : client.webhookSecret = some secret)
    (ht : componentGet (parseSignatureHeader signature) "t" = some ts)
    (hts : ts ≠ "")
    (hv : componentGet (parseSignatureHeader signature) "v1" = some v1)
    (hv1 : v1 ≠ "")
    (hparse : parseIntJS ts = some t)
    (hwin : currentTime - t ≤ 900) :
    verifyWebhookSignature hmacSha256Hex client payload signature currentTime
      = .ok true ↔
    v1 = hmacSha256Hex secret (ts ++ "." ++ canonicalPayloadString payload) := by
  have hf : freshnessExceeded currentTime ts = false := by
    rw [freshnessExceeded, hparse]
    exact decide_eq_false (by omega)
  rw [verify_reduces_to_compare hmacSha256Hex client secret payload signature
    currentTime ts v1 hs ht hts hv hv1 hf]
  constructor
  · intro h
    by_contra heq
    rw [timingSafeEqual] at h
    by_cases hlen : v1.utf8ByteSize ≠
        (hmacSha256Hex secret (ts ++ "." ++ canonicalPayloadString payload)).utf8ByteSize
    · rw [if_pos hlen] at h
      exact absurd h (by simp)
    · rw [if_neg hlen] at h
      simp only [decide_eq_true_eq] at h
      exact heq (by simpa using h)
  · intro heq
    rw [← heq, timingSafeEqual, if_neg (by simp)]
    simp

/-- Witness for C8 at a concrete header inside the window: the iff holds at
current time 101 for header `t=100,v1=sig` and the toy digest "sig". -/
theorem verify_hmac_characterization_witness :
    (verifyWebhookSignature (fun _ _ => "sig") ⟨"k", "s", "o", some "sec", 86400⟩
      (.json (.obj [("id", .str "123")])) "t=100,v1=sig" 101 = .ok true ↔
    "sig" = (fun _ _ => "sig") "sec"
      ("100" ++ "." ++ canonicalPayloadString (.json (.obj [("id", .str "123")])))) :=
  verify_hmac_characterization (fun _ _ => "sig")
    ⟨"k", "s", "o", some "sec", 86400⟩ "sec" (.json (.obj [("id", .str "123")]))
    "t=100,v1=sig" 101 "100" "sig" 100 rfl rfl (by decide) rfl (by decide) rfl
    (by decide)

/-- C10: when the provided `v1` has a byte length different from the 64-byte
hex digest the HMAC produces, the constant-time comparison throws, the catch
collapses it to false, and verification returns false instead of
propagating the error. -/
theorem verify_length_mismatch_returns_false (hmacSha256Hex : String → String → String)
    (client : ContactsManagerClient) (secret : String) (payload : WebhookPayload)
    (signature : String) (currentTime : Int) (ts v1 : String)
    (hs : client.webhookSecret = some secret)
    (ht : componentGet (parseSignatureHeader signature) "t" = some ts)
    (hts : ts ≠ "")
    (hv : componentGet (parseSignatureHeader signature) "v1" = some v1)
    (hv1 : v1 ≠ "")
    (hfresh : freshnessExceeded currentTime ts = false)
    (hdigest : (hmacSha256Hex secret
      (ts ++ "." ++ canonicalPayloadString payload)).utf8ByteSize = 64)
    (hlen : v1.utf8ByteSize ≠ 64) :
    verifyWebhookSignature hmacSha256Hex client payload signature currentTime
      = .ok false := by
  rw [verify_reduces_to_compare hmacSha256Hex client secret payload signature
    currentTime ts v1 hs ht hts hv hv1 hfresh]
  rw [timingSafeEqual, if_pos (by rw [hdigest]; exact hlen)]

/-- Witness for C10: a 64-character digest against the 3-byte `v1` value
"sig" yields false, not an exception. -/
theorem verify_length_mismatch_returns_false_witness :
    verifyWebhookSignature
      (fun _ _ => "aaaaaaaaaaaaaaaaaaaaaaaaaaaaaaaaaaaaaaaaaaaaaaaaaaaaaaaaaaaaaaaa")
      ⟨"k", "s", "o", some "sec", 86400⟩ (.str "p") "t=100,v1=sig" 100 = .ok false :=
  verify_length_mismatch_returns_false
    (fun _ _ => "aaaaaaaaaaaaaaaaaaaaaaaaaaaaaaaaaaaaaaaaaaaaaaaaaaaaaaaaaaaaaaaa")
    ⟨"k", "s", "o", some "sec", 86400⟩ "sec" (.str "p") "t=100,v1=sig" 100
    "100" "sig" rfl rfl (by decide) rfl (by decide) rfl (by decide) (by decide)
